import Mathlib

/-!
# Shader program wrapper (src/src/shader.cpp)

A shallow embedding of the class Shader: its constructor (read two source files,
compile two stages, link, print diagnostics), use() and the four uniform setters.

The program talks to two outside parties, the file system (through std::ifstream)
and the OpenGL context.  Every call the constructor makes on them is made exactly
once (the code is straight-line), so their answers are given per call site, in
the record Env; the constructor returns the object, the graphics calls it issued
in order, and the characters it wrote to std::cout.

What the context holds after those calls (which objects, what is attached, what is
linked) is not decided by shader.cpp but by OpenGL: the structure Context replays
the calls by the documented rules of the entry points the constructor uses.
-/

namespace LearnOpenGL

/-- Text of a C string, a std::string or an output stream: one Char per char. -/
abbrev Text := List Char

/-- The manipulator std::endl as the characters it inserts (the flush is not modelled). -/
def endl : Text := ['\n']

/-- Modelled from the spec: the class declaration of shader.hpp, which src/ does not
hold.  Section 3 of the spec gives the object a program identifier and the two
originating paths; the field names are the ones shader.cpp uses (ID is assigned an
unsigned int, the paths are printed). -/
structure Shader where
  ID : Nat
  vertexSourcePath : Text
  fragmentSourcePath : Text
deriving DecidableEq

/-- The first argument of glCreateShader. -/
inductive ShaderType where
  | GL_VERTEX_SHADER
  | GL_FRAGMENT_SHADER
deriving DecidableEq

/-- A float argument, carried as its bit pattern: the code passes floats through
unchanged and does no arithmetic on them. -/
abbrev GLfloat := Nat

/-- One call into the OpenGL API, with the arguments the code passes; the two
create calls also carry the handle the context returned.  glGetShaderiv is always
called with GL_COMPILE_STATUS and glGetProgramiv with GL_LINK_STATUS.
glDeleteProgram is an entry point shader.cpp never calls; it is listed so that
this can be stated. -/
inductive GLCall where
  | glCreateShader (type : ShaderType) (returned : Nat)
  | glShaderSource (shader : Nat) (source : Text)
  | glCompileShader (shader : Nat)
  | glGetShaderiv (shader : Nat)
  | glGetShaderInfoLog (shader : Nat) (bufSize : Nat)
  | glCreateProgram (returned : Nat)
  | glAttachShader (program : Nat) (shader : Nat)
  | glLinkProgram (program : Nat)
  | glGetProgramiv (program : Nat)
  | glGetProgramInfoLog (program : Nat) (bufSize : Nat)
  | glDeleteShader (shader : Nat)
  | glDeleteProgram (program : Nat)
  | glUseProgram (program : Nat)
  | glGetUniformLocation (program : Nat) (name : Text)
  | glUniform1i (location : Int) (v0 : Int)
  | glUniform1f (location : Int) (v0 : GLfloat)
  | glUniform4f (location : Int) (v0 v1 v2 v3 : GLfloat)
deriving DecidableEq

namespace GLCall

/-- The info-log queries. -/
def isInfoLogQuery : GLCall → Bool
  | glGetShaderInfoLog _ _ => true
  | glGetProgramInfoLog _ _ => true
  | _ => false

/-- The calls that only read from the context. -/
def isQuery : GLCall → Bool
  | glGetShaderiv _ => true
  | glGetProgramiv _ => true
  | glGetShaderInfoLog _ _ => true
  | glGetProgramInfoLog _ _ => true
  | glGetUniformLocation _ _ => true
  | _ => false

/-- The calls that hand a source text to the shader compiler. -/
def isShaderSource : GLCall → Bool
  | glShaderSource _ _ => true
  | _ => false

/-- The calls that create an object. -/
def isCreate : GLCall → Bool
  | glCreateShader _ _ => true
  | glCreateProgram _ => true
  | _ => false

/-- The calls that delete an object. -/
def isDelete : GLCall → Bool
  | glDeleteShader _ => true
  | glDeleteProgram _ => true
  | _ => false

end GLCall

/-- What the file system answers on one std::ifstream of the constructor.
opens: open() succeeded.  content: the characters that operator<< extracts from
rdbuf() before it stops, at end of file or at a read error.  readError: it stopped
at a read error.  closes: close() succeeded. -/
structure FileRun where
  opens : Bool
  content : Text
  readError : Bool
  closes : Bool
deriving DecidableEq

/-- The file was opened, read to its end and closed without any failure. -/
def FileRun.readOk (f : FileRun) : Prop :=
  f.opens = true ∧ f.readError = false ∧ f.closes = true

instance (f : FileRun) : Decidable f.readOk := by
  unfold FileRun.readOk; infer_instance

/-- The file could not be opened, or could not be read. -/
def FileRun.openOrReadFails (f : FileRun) : Prop :=
  f.opens = false ∨ f.readError = true

instance (f : FileRun) : Decidable f.openOrReadFails := by
  unfold FileRun.openOrReadFails; infer_instance

/-- The answers of the file system and of the OpenGL context at the call sites of
the constructor.  A status is the int that the query leaves in the local variable
success (0 is failure); a log is the info log the context holds for the object at
the time of the query. -/
structure Env where
  vertexFile : FileRun
  fragmentFile : FileRun
  vertexShader : Nat
  vertexStatus : Int
  vertexLog : Text
  fragmentShader : Nat
  fragmentStatus : Int
  fragmentLog : Text
  program : Nat
  linkStatus : Int
  programLog : Text

/-- The exceptions of the model; std::ifstream::failure is the one the code catches. -/
inductive Exception where
  | ios_failure
deriving DecidableEq

/-- Lines 23-38, the body of the try block.  Both streams have failbit and badbit
in their exception mask (lines 19-20), so open() and close() throw when they fail.
The two reads go through operator<<(streambuf*) of a std::stringstream: a failure
there is recorded in the state of the stringstream, whose exception mask is empty,
and never in the ifstream, so a read error throws nothing and the stream keeps the
characters extracted so far.  The strings are copied out last, after every
statement that can throw. -/
def readSources (vertexFile fragmentFile : FileRun) : Except Exception (Text × Text) := do
  -- open files
  if vertexFile.opens = false then throw Exception.ios_failure
  if fragmentFile.opens = false then throw Exception.ios_failure
  -- read files as streams
  let vertexShaderStream := vertexFile.content
  let fragmentShaderStream := fragmentFile.content
  -- close files
  if vertexFile.closes = false then throw Exception.ios_failure
  if fragmentFile.closes = false then throw Exception.ios_failure
  -- copy strings from streams
  return (vertexShaderStream, fragmentShaderStream)

/-- Lines 41-43, what the catch block writes. -/
def sourceReadDiagnostic (vertexPath fragmentPath : Text) : Text :=
  "SHADER SOURCE FILE(S) COULD NOT BE READ".toList ++ endl ++
  "vertex: ".toList ++ vertexPath ++ endl ++
  "fragment: ".toList ++ fragmentPath ++ endl

/-- What c_str() hands to glShaderSource, whose length argument is NULL: the
characters before the first NUL. -/
def c_str (s : Text) : Text := s.takeWhile (fun c => c != Char.ofNat 0)

/-- What glGetShaderInfoLog and glGetProgramInfoLog leave in the buffer infoLog
before the terminating NUL, and so what std::cout prints from it: the API writes at
most bufSize chars, the terminating NUL included. -/
def glGetInfoLog (log : Text) (bufSize : Nat) : Text := log.take (bufSize - 1)

/-- What a piece of code did: the graphics calls it issued, in order, and the
characters it wrote to std::cout. -/
structure Effect where
  calls : List GLCall
  out : Text
deriving DecidableEq

/-- Lines 96-106.  success and log are the answers of the context to the two queries. -/
def Shader.checkVertexShaderCompileErrors (self : Shader) (success : Int) (log : Text)
    (shader : Nat) : Effect :=
  if success = 0 then
    let infoLog := glGetInfoLog log 1024
    { calls := [GLCall.glGetShaderiv shader, GLCall.glGetShaderInfoLog shader 1024],
      out := "VERTEX SHADER COMPILATION ERROR".toList ++ endl ++
        "path: ".toList ++ self.vertexSourcePath ++ endl ++
        infoLog }
  else
    { calls := [GLCall.glGetShaderiv shader], out := [] }

/-- Lines 108-118. -/
def Shader.checkFragmentShaderCompileErrors (self : Shader) (success : Int) (log : Text)
    (shader : Nat) : Effect :=
  if success = 0 then
    let infoLog := glGetInfoLog log 1024
    { calls := [GLCall.glGetShaderiv shader, GLCall.glGetShaderInfoLog shader 1024],
      out := "FRAGMENT SHADER COMPILATION ERROR".toList ++ endl ++
        "path: ".toList ++ self.fragmentSourcePath ++ endl ++
        infoLog }
  else
    { calls := [GLCall.glGetShaderiv shader], out := [] }

/-- Lines 120-129.  The status is queried on the argument, the log on the member ID. -/
def Shader.checkProgramLinkErrors (self : Shader) (success : Int) (log : Text)
    (program : Nat) : Effect :=
  if success = 0 then
    let infoLog := glGetInfoLog log 1024
    { calls := [GLCall.glGetProgramiv program, GLCall.glGetProgramInfoLog self.ID 1024],
      out := "SHADER PROGRAM LINKING ERROR".toList ++ endl ++
        infoLog ++ endl }
  else
    { calls := [GLCall.glGetProgramiv program], out := [] }

/-- The result of a constructor call: the object, and what constructing it did. -/
structure Constructed where
  self : Shader
  calls : List GLCall
  out : Text
deriving DecidableEq

/-- Lines 8-74, the constructor Shader::Shader (the name Shader.Shader would clash
with the structure inside its own namespace).  The member ID has no value before
line 65 and is not read before; it is 0 in the object under construction until then. -/
def Shader.new (env : Env) (vertexPath fragmentPath : Text) : Except Exception Constructed := do
  -- store paths for debugging
  let self : Shader :=
    { ID := 0, vertexSourcePath := vertexPath, fragmentSourcePath := fragmentPath }
  let (vertexCode, fragmentCode, out0) ←
    try
      let (vertexCode, fragmentCode) ← readSources env.vertexFile env.fragmentFile
      pure (vertexCode, fragmentCode, ([] : Text))
    catch e =>
      match e with
      | Exception.ios_failure =>
        pure (([] : Text), ([] : Text), sourceReadDiagnostic vertexPath fragmentPath)
  -- copy c++ strings to c strings
  let vertexShaderSource := c_str vertexCode
  let fragmentShaderSource := c_str fragmentCode
  -- vertex shader compilation and error checking
  let vertexShader := env.vertexShader
  let calls1 := [GLCall.glCreateShader ShaderType.GL_VERTEX_SHADER vertexShader,
    GLCall.glShaderSource vertexShader vertexShaderSource,
    GLCall.glCompileShader vertexShader]
  let check1 := self.checkVertexShaderCompileErrors env.vertexStatus env.vertexLog vertexShader
  -- fragment shader compilation and error checking
  let fragmentShader := env.fragmentShader
  let calls2 := [GLCall.glCreateShader ShaderType.GL_FRAGMENT_SHADER fragmentShader,
    GLCall.glShaderSource fragmentShader fragmentShaderSource,
    GLCall.glCompileShader fragmentShader]
  let check2 := self.checkFragmentShaderCompileErrors env.fragmentStatus env.fragmentLog
    fragmentShader
  -- shader program linking and error checking
  let self : Shader := { self with ID := env.program }
  let calls3 := [GLCall.glCreateProgram self.ID,
    GLCall.glAttachShader self.ID vertexShader,
    GLCall.glAttachShader self.ID fragmentShader,
    GLCall.glLinkProgram self.ID]
  let check3 := self.checkProgramLinkErrors env.linkStatus env.programLog self.ID
  -- the already compiled and linked shaders can be deleted
  let calls4 := [GLCall.glDeleteShader vertexShader, GLCall.glDeleteShader fragmentShader]
  return {
    self := self
    calls := calls1 ++ check1.calls ++ calls2 ++ check2.calls ++ calls3 ++ check3.calls ++ calls4
    out := out0 ++ check1.out ++ check2.out ++ check3.out }

/-- What a member function called on a constructed object did: the object after
the call, the graphics calls issued, the characters written to std::cout, and the
uniform state of the context after the call. -/
structure Called (σ : Type) where
  self : Shader
  calls : List GLCall
  out : Text
  gl : σ

/-- The part of the OpenGL context the setters work on, over a state σ that holds
the values of the uniforms.  getUniformLocation answers the lookup of a name in a
program (-1: no active uniform of that name).  The three store functions say what
glUniform1i, glUniform1f and glUniform4f do at a location other than -1. -/
structure Driver (σ : Type) where
  getUniformLocation : σ → Nat → Text → Int
  store1i : Int → Int → σ → σ
  store1f : Int → GLfloat → σ → σ
  store4f : Int → GLfloat → GLfloat → GLfloat → GLfloat → σ → σ

/-- The API contract of glUniform1i: data passed for location -1 is silently ignored. -/
def glUniform1i {σ : Type} (d : Driver σ) (location : Int) (v0 : Int) (gl : σ) : σ :=
  if location = -1 then gl else d.store1i location v0 gl

/-- The API contract of glUniform1f: data passed for location -1 is silently ignored. -/
def glUniform1f {σ : Type} (d : Driver σ) (location : Int) (v0 : GLfloat) (gl : σ) : σ :=
  if location = -1 then gl else d.store1f location v0 gl

/-- The API contract of glUniform4f: data passed for location -1 is silently ignored. -/
def glUniform4f {σ : Type} (d : Driver σ) (location : Int) (v0 v1 v2 v3 : GLfloat) (gl : σ) : σ :=
  if location = -1 then gl else d.store4f location v0 v1 v2 v3 gl

/-- Lines 76-78. -/
def Shader.use {σ : Type} (self : Shader) (gl : σ) : Called σ :=
  { self := self, calls := [GLCall.glUseProgram self.ID], out := [], gl := gl }

/-- Lines 80-82; the cast (int) value is 1 for true and 0 for false. -/
def Shader.setBool {σ : Type} (d : Driver σ) (self : Shader) (name : Text) (value : Bool)
    (gl : σ) : Called σ :=
  let location := d.getUniformLocation gl self.ID name
  let v : Int := if value then 1 else 0
  { self := self
    calls := [GLCall.glGetUniformLocation self.ID name, GLCall.glUniform1i location v]
    out := []
    gl := glUniform1i d location v gl }

/-- Lines 84-86. -/
def Shader.setInt {σ : Type} (d : Driver σ) (self : Shader) (name : Text) (value : Int)
    (gl : σ) : Called σ :=
  let location := d.getUniformLocation gl self.ID name
  { self := self
    calls := [GLCall.glGetUniformLocation self.ID name, GLCall.glUniform1i location value]
    out := []
    gl := glUniform1i d location value gl }

/-- Lines 88-90. -/
def Shader.setFloat {σ : Type} (d : Driver σ) (self : Shader) (name : Text) (value : GLfloat)
    (gl : σ) : Called σ :=
  let location := d.getUniformLocation gl self.ID name
  { self := self
    calls := [GLCall.glGetUniformLocation self.ID name, GLCall.glUniform1f location value]
    out := []
    gl := glUniform1f d location value gl }

/-- Lines 92-94. -/
def Shader.setFloat4 {σ : Type} (d : Driver σ) (self : Shader) (name : Text)
    (value1 value2 value3 value4 : GLfloat) (gl : σ) : Called σ :=
  let location := d.getUniformLocation gl self.ID name
  { self := self
    calls := [GLCall.glGetUniformLocation self.ID name,
      GLCall.glUniform4f location value1 value2 value3 value4]
    out := []
    gl := glUniform4f d location value1 value2 value3 value4 gl }

/-- The objects an OpenGL context holds, with the state the calls of the
constructor act on.  shaders, programs: the names of the shader and program
objects held.  compiled: the shader objects whose COMPILE_STATUS is true.
attached: the pairs (program, shader) of attachments.  flagged: the shader objects
flagged for deletion.  linked: the program objects whose LINK_STATUS is true. -/
structure Context where
  shaders : List Nat
  compiled : List Nat
  flagged : List Nat
  programs : List Nat
  attached : List (Nat × Nat)
  linked : List Nat
deriving DecidableEq

namespace Context

/-- A context that holds no object. -/
def empty : Context :=
  { shaders := [], compiled := [], flagged := [], programs := [], attached := [], linked := [] }

/-- The rule of glCreateShader, given the name it returned: 0 reports an error and
no object is created. -/
def createShader (c : Context) (returned : Nat) : Context :=
  if returned = 0 then c else { c with shaders := c.shaders ++ [returned] }

/-- The rule of glCreateProgram, given the name it returned: 0 reports an error and
no object is created. -/
def createProgram (c : Context) (returned : Nat) : Context :=
  if returned = 0 then c else { c with programs := c.programs ++ [returned] }

/-- The rule of glCompileShader, given the verdict of the compiler: the call is
refused when the name is not a shader object; otherwise COMPILE_STATUS becomes the
verdict. -/
def compileShader (c : Context) (shader : Nat) (ok : Bool) : Context :=
  if shader ∈ c.shaders then
    { c with compiled :=
        if ok then c.compiled.filter (fun s => s != shader) ++ [shader]
        else c.compiled.filter (fun s => s != shader) }
  else c

/-- The rule of glAttachShader: refused when program is not a program object, when
shader is not a shader object, or when shader is attached to program already. -/
def attachShader (c : Context) (program shader : Nat) : Context :=
  if program ∈ c.programs ∧ shader ∈ c.shaders ∧ (program, shader) ∉ c.attached then
    { c with attached := c.attached ++ [(program, shader)] }
  else c

/-- The rule of glLinkProgram, given the verdict of the linker: refused when the
name is not a program object; otherwise LINK_STATUS becomes true when the linker
accepts and every shader object attached to the program is compiled, and false
when one of them is not compiled. -/
def linkProgram (c : Context) (program : Nat) (ok : Bool) : Context :=
  if program ∈ c.programs then
    { c with linked :=
        if ok && c.attached.all (fun a => a.1 != program || decide (a.2 ∈ c.compiled)) then
          c.linked.filter (fun q => q != program) ++ [program]
        else c.linked.filter (fun q => q != program) }
  else c

/-- The rule of glDeleteShader: ignored or refused when the name is not a shader
object; a shader object attached to a program object is flagged for deletion and
stays until it is attached to none; any other shader object is deleted. -/
def deleteShader (c : Context) (shader : Nat) : Context :=
  if shader ∈ c.shaders then
    if c.attached.any (fun a => a.2 == shader) then
      { c with flagged := c.flagged.filter (fun s => s != shader) ++ [shader] }
    else
      { c with
        shaders := c.shaders.filter (fun s => s != shader)
        compiled := c.compiled.filter (fun s => s != shader)
        flagged := c.flagged.filter (fun s => s != shader) }
  else c

/-- The context after a run of calls, given the verdicts of the compiler for the
glCompileShader calls and of the linker for the glLinkProgram calls, in the order
of the calls.  The queries leave the objects as they are, and so does
glShaderSource, the source text not being tracked.  The calls the constructor
never issues (glDeleteProgram, glUseProgram, glGetUniformLocation, glUniform*) are
not modelled: the result is none. -/
def run (c : Context) (compileOk linkOk : List Bool) : List GLCall → Option Context
  | [] => some c
  | GLCall.glCreateShader _ returned :: rest =>
    (c.createShader returned).run compileOk linkOk rest
  | GLCall.glShaderSource _ _ :: rest => c.run compileOk linkOk rest
  | GLCall.glCompileShader shader :: rest =>
    (c.compileShader shader (compileOk.headD false)).run compileOk.tail linkOk rest
  | GLCall.glGetShaderiv _ :: rest => c.run compileOk linkOk rest
  | GLCall.glGetShaderInfoLog _ _ :: rest => c.run compileOk linkOk rest
  | GLCall.glCreateProgram returned :: rest =>
    (c.createProgram returned).run compileOk linkOk rest
  | GLCall.glAttachShader program shader :: rest =>
    (c.attachShader program shader).run compileOk linkOk rest
  | GLCall.glLinkProgram program :: rest =>
    (c.linkProgram program (linkOk.headD false)).run compileOk linkOk.tail rest
  | GLCall.glGetProgramiv _ :: rest => c.run compileOk linkOk rest
  | GLCall.glGetProgramInfoLog _ _ :: rest => c.run compileOk linkOk rest
  | GLCall.glDeleteShader shader :: rest => (c.deleteShader shader).run compileOk linkOk rest
  | _ :: _ => none

/-- The rule of glUseProgram: the name 0 is accepted (no program is current then);
any other name is accepted when it is a program object whose LINK_STATUS is true,
and refused otherwise. -/
def acceptsUse (c : Context) (program : Nat) : Prop :=
  program = 0 ∨ (program ∈ c.programs ∧ program ∈ c.linked)

instance (c : Context) (program : Nat) : Decidable (c.acceptsUse program) := by
  unfold acceptsUse; infer_instance

end Context

/-- The context after the calls of a construction run, started with no object.
The verdicts are the statuses the run reported: on a shader or program object the
status query answers its COMPILE_STATUS or LINK_STATUS. -/
def Env.contextAfter (env : Env) (calls : List GLCall) : Option Context :=
  Context.empty.run [decide (env.vertexStatus ≠ 0), decide (env.fragmentStatus ≠ 0)]
    [decide (env.linkStatus ≠ 0)] calls

/-- The try statement did not throw: both files opened and both closed. -/
def Env.noThrow (env : Env) : Prop :=
  env.vertexFile.opens = true ∧ env.fragmentFile.opens = true ∧
  env.vertexFile.closes = true ∧ env.fragmentFile.closes = true

instance (env : Env) : Decidable env.noThrow := by
  unfold Env.noThrow; infer_instance

/-- The calls of the constructor up to the link call, the two sources left open
(a device of the proofs: the constructor itself is Shader.new). -/
def ctorCalls (env : Env) (vertexSource fragmentSource : Text) : List GLCall :=
  [GLCall.glCreateShader ShaderType.GL_VERTEX_SHADER env.vertexShader,
    GLCall.glShaderSource env.vertexShader vertexSource,
    GLCall.glCompileShader env.vertexShader,
    GLCall.glGetShaderiv env.vertexShader] ++
  (if env.vertexStatus = 0 then [GLCall.glGetShaderInfoLog env.vertexShader 1024] else []) ++
  [GLCall.glCreateShader ShaderType.GL_FRAGMENT_SHADER env.fragmentShader,
    GLCall.glShaderSource env.fragmentShader fragmentSource,
    GLCall.glCompileShader env.fragmentShader,
    GLCall.glGetShaderiv env.fragmentShader] ++
  (if env.fragmentStatus = 0 then [GLCall.glGetShaderInfoLog env.fragmentShader 1024]
    else []) ++
  [GLCall.glCreateProgram env.program,
    GLCall.glAttachShader env.program env.vertexShader,
    GLCall.glAttachShader env.program env.fragmentShader]

/-- The context a construction run leaves when the context created the three
objects (a device of the proofs, shown equal to the run of Env.contextAfter there). -/
def ctorContext (env : Env) : Context :=
  { shaders := [env.vertexShader, env.fragmentShader]
    compiled :=
      (if env.vertexStatus ≠ 0 then [env.vertexShader] else []) ++
      (if env.fragmentStatus ≠ 0 then [env.fragmentShader] else [])
    flagged := [env.vertexShader, env.fragmentShader]
    programs := [env.program]
    attached := [(env.program, env.vertexShader), (env.program, env.fragmentShader)]
    linked :=
      if env.vertexStatus ≠ 0 ∧ env.fragmentStatus ≠ 0 ∧ env.linkStatus ≠ 0
      then [env.program] else [] }

/-! ## Concrete runs -/

/-- A file that opens, holds a one-line shader and closes. -/
def goodFile : FileRun :=
  { opens := true, content := "void main(){}".toList, readError := false, closes := true }

/-- A path that opens but cannot be read, as a directory does on POSIX systems:
open() succeeds, the first read fails, close() succeeds. -/
def directoryFile : FileRun :=
  { opens := true, content := [], readError := true, closes := true }

/-- A run in which nothing fails; the context hands out the names 1, 2 and 3. -/
def cleanEnv : Env :=
  { vertexFile := goodFile, fragmentFile := goodFile,
    vertexShader := 1, vertexStatus := 1, vertexLog := [],
    fragmentShader := 2, fragmentStatus := 1, fragmentLog := [],
    program := 3, linkStatus := 1, programLog := [] }

/-- The clean run, but the fragment path names a directory. -/
def directoryEnv : Env := { cleanEnv with fragmentFile := directoryFile }

/-- The clean run, but the two stages do not link. -/
def linkFailEnv : Env :=
  { cleanEnv with linkStatus := 0, programLog := "varyings do not match".toList }

/-- The clean run, but the vertex source does not compile, and so nothing links. -/
def vertexFailEnv : Env :=
  { cleanEnv with
    vertexStatus := 0, vertexLog := "0:1: syntax".toList,
    linkStatus := 0, programLog := "vertex shader not compiled".toList }

/-- The vertex-failure run with a compiler log of exactly 1024 chars. -/
def longLogEnv : Env := { vertexFailEnv with vertexLog := List.replicate 1024 'x' }

/-- The clean run, but the fragment source does not compile, the compiler log is
1500 chars long, and so nothing links. -/
def longFragmentLogEnv : Env :=
  { cleanEnv with
    fragmentStatus := 0, fragmentLog := List.replicate 1500 'y',
    linkStatus := 0, programLog := "fragment shader not compiled".toList }

/-- The clean run, but glCreateShader fails for the vertex stage and returns 0.
Every later call on the name 0 is refused: nothing is compiled or attached for the
vertex stage, and the status query writes nothing, so that success keeps the value
the uninitialised int holds, here 0.  The program links with the fragment stage
alone. -/
def noVertexObjectEnv : Env :=
  { cleanEnv with vertexShader := 0, vertexStatus := 0, vertexLog := [] }

/-- A context with one active uniform, named color, at location 0; its state is
the list of the stores made so far. -/
def oneUniformDriver : Driver (List (Int × Int)) :=
  { getUniformLocation := fun _ _ name => if name = "color".toList then 0 else -1
    store1i := fun location v0 gl => (location, v0) :: gl
    store1f := fun location v0 gl => (location, (v0 : Int)) :: gl
    store4f := fun location v0 _ _ _ gl => (location, (v0 : Int)) :: gl }

/-! ## Shared lemmas -/

theorem readSources_eq (v f : FileRun) :
    readSources v f =
      if v.opens = true ∧ f.opens = true ∧ v.closes = true ∧ f.closes = true
      then Except.ok (v.content, f.content) else Except.error Exception.ios_failure := by
  obtain ⟨vo, vc, ve, vl⟩ := v
  obtain ⟨fo, fc, fe, fl⟩ := f
  cases vo <;> cases fo <;> cases vl <;> cases fl <;> rfl

/-- The constructor in closed form: it always returns, with the program handle as
ID, the fixed run of calls around the three checks, and the four pieces of output. -/
theorem new_eq (env : Env) (vertexPath fragmentPath : Text) :
    Shader.new env vertexPath fragmentPath = Except.ok
      { self := ⟨env.program, vertexPath, fragmentPath⟩
        calls :=
          [GLCall.glCreateShader ShaderType.GL_VERTEX_SHADER env.vertexShader,
            GLCall.glShaderSource env.vertexShader
              (c_str (if env.noThrow then env.vertexFile.content else [])),
            GLCall.glCompileShader env.vertexShader] ++
          (Shader.checkVertexShaderCompileErrors ⟨0, vertexPath, fragmentPath⟩
            env.vertexStatus env.vertexLog env.vertexShader).calls ++
          [GLCall.glCreateShader ShaderType.GL_FRAGMENT_SHADER env.fragmentShader,
            GLCall.glShaderSource env.fragmentShader
              (c_str (if env.noThrow then env.fragmentFile.content else [])),
            GLCall.glCompileShader env.fragmentShader] ++
          (Shader.checkFragmentShaderCompileErrors ⟨0, vertexPath, fragmentPath⟩
            env.fragmentStatus env.fragmentLog env.fragmentShader).calls ++
          [GLCall.glCreateProgram env.program,
            GLCall.glAttachShader env.program env.vertexShader,
            GLCall.glAttachShader env.program env.fragmentShader,
            GLCall.glLinkProgram env.program] ++
          (Shader.checkProgramLinkErrors ⟨env.program, vertexPath, fragmentPath⟩
            env.linkStatus env.programLog env.program).calls ++
          [GLCall.glDeleteShader env.vertexShader, GLCall.glDeleteShader env.fragmentShader]
        out :=
          (if env.noThrow then [] else sourceReadDiagnostic vertexPath fragmentPath) ++
          (Shader.checkVertexShaderCompileErrors ⟨0, vertexPath, fragmentPath⟩
            env.vertexStatus env.vertexLog env.vertexShader).out ++
          (Shader.checkFragmentShaderCompileErrors ⟨0, vertexPath, fragmentPath⟩
            env.fragmentStatus env.fragmentLog env.fragmentShader).out ++
          (Shader.checkProgramLinkErrors ⟨env.program, vertexPath, fragmentPath⟩
            env.linkStatus env.programLog env.program).out } := by
  unfold Shader.new
  rw [readSources_eq]
  by_cases h : env.noThrow
  · have h2 := h
    unfold Env.noThrow at h2
    rw [if_pos h2]
    simp only [if_pos h]
    rfl
  · have h2 := h
    unfold Env.noThrow at h2
    rw [if_neg h2]
    simp only [if_neg h]
    rfl

theorem checkVertex_calls (self : Shader) (success : Int) (log : Text) (shader : Nat) :
    (self.checkVertexShaderCompileErrors success log shader).calls =
      GLCall.glGetShaderiv shader ::
        (if success = 0 then [GLCall.glGetShaderInfoLog shader 1024] else []) := by
  unfold Shader.checkVertexShaderCompileErrors
  split_ifs <;> rfl

theorem checkFragment_calls (self : Shader) (success : Int) (log : Text) (shader : Nat) :
    (self.checkFragmentShaderCompileErrors success log shader).calls =
      GLCall.glGetShaderiv shader ::
        (if success = 0 then [GLCall.glGetShaderInfoLog shader 1024] else []) := by
  unfold Shader.checkFragmentShaderCompileErrors
  split_ifs <;> rfl

theorem checkProgram_calls (self : Shader) (success : Int) (log : Text) (program : Nat) :
    (self.checkProgramLinkErrors success log program).calls =
      GLCall.glGetProgramiv program ::
        (if success = 0 then [GLCall.glGetProgramInfoLog self.ID 1024] else []) := by
  unfold Shader.checkProgramLinkErrors
  split_ifs <;> rfl

theorem checkVertex_out (self : Shader) (success : Int) (log : Text) (shader : Nat) :
    (self.checkVertexShaderCompileErrors success log shader).out =
      if success = 0 then
        "VERTEX SHADER COMPILATION ERROR".toList ++ endl ++
          "path: ".toList ++ self.vertexSourcePath ++ endl ++ glGetInfoLog log 1024
      else [] := by
  unfold Shader.checkVertexShaderCompileErrors
  split_ifs <;> rfl

theorem checkFragment_out (self : Shader) (success : Int) (log : Text) (shader : Nat) :
    (self.checkFragmentShaderCompileErrors success log shader).out =
      if success = 0 then
        "FRAGMENT SHADER COMPILATION ERROR".toList ++ endl ++
          "path: ".toList ++ self.fragmentSourcePath ++ endl ++ glGetInfoLog log 1024
      else [] := by
  unfold Shader.checkFragmentShaderCompileErrors
  split_ifs <;> rfl

theorem checkProgram_out (self : Shader) (success : Int) (log : Text) (program : Nat) :
    (self.checkProgramLinkErrors success log program).out =
      if success = 0 then
        "SHADER PROGRAM LINKING ERROR".toList ++ endl ++ glGetInfoLog log 1024 ++ endl
      else [] := by
  unfold Shader.checkProgramLinkErrors
  split_ifs <;> rfl

theorem new_calls (env : Env) (vertexPath fragmentPath : Text) :
    ∃ r vertexSource fragmentSource,
      Shader.new env vertexPath fragmentPath = Except.ok r ∧
      r.self = ⟨env.program, vertexPath, fragmentPath⟩ ∧
      r.calls = ctorCalls env vertexSource fragmentSource ++
        GLCall.glLinkProgram env.program ::
        (GLCall.glGetProgramiv env.program ::
          (if env.linkStatus = 0 then [GLCall.glGetProgramInfoLog env.program 1024] else []) ++
        [GLCall.glDeleteShader env.vertexShader, GLCall.glDeleteShader env.fragmentShader]) := by
  refine ⟨_, c_str (if env.noThrow then env.vertexFile.content else []),
    c_str (if env.noThrow then env.fragmentFile.content else []),
    new_eq env vertexPath fragmentPath, rfl, ?_⟩
  simp only [checkVertex_calls, checkFragment_calls, checkProgram_calls, ctorCalls,
    List.append_assoc, List.cons_append, List.nil_append]

theorem ctorCalls_filter_isDelete (env : Env) (a b : Text) :
    (ctorCalls env a b).filter GLCall.isDelete = [] := by
  unfold ctorCalls
  split_ifs <;> simp [GLCall.isDelete]

theorem ctorCalls_filter_isCreate (env : Env) (a b : Text) :
    (ctorCalls env a b).filter GLCall.isCreate =
      [GLCall.glCreateShader ShaderType.GL_VERTEX_SHADER env.vertexShader,
        GLCall.glCreateShader ShaderType.GL_FRAGMENT_SHADER env.fragmentShader,
        GLCall.glCreateProgram env.program] := by
  unfold ctorCalls
  split_ifs <;> simp [GLCall.isCreate]

theorem ctorCalls_no_deleteProgram (env : Env) (a b : Text) (q : Nat) :
    GLCall.glDeleteProgram q ∉ ctorCalls env a b := by
  unfold ctorCalls
  split_ifs <;> simp

/-- The context after construction when it created the three objects: both stage
objects are still held, attached and flagged for deletion; the program is linked
exactly when the compiler and the linker accepted everything. -/
theorem contextAfter_ctor (env : Env) (vertexSource fragmentSource : Text)
    (hv : env.vertexShader ≠ 0) (hf : env.fragmentShader ≠ 0)
    (hd : env.vertexShader ≠ env.fragmentShader) (hp : env.program ≠ 0) :
    env.contextAfter (ctorCalls env vertexSource fragmentSource ++
        GLCall.glLinkProgram env.program ::
        (GLCall.glGetProgramiv env.program ::
          (if env.linkStatus = 0 then [GLCall.glGetProgramInfoLog env.program 1024] else []) ++
        [GLCall.glDeleteShader env.vertexShader, GLCall.glDeleteShader env.fragmentShader])) =
      some (ctorContext env) := by
  have hd2 : env.fragmentShader ≠ env.vertexShader := fun e => hd e.symm
  unfold Env.contextAfter ctorCalls ctorContext
  by_cases h1 : env.vertexStatus = 0 <;> by_cases h2 : env.fragmentStatus = 0 <;>
    by_cases h3 : env.linkStatus = 0 <;>
    simp [h1, h2, h3, Context.run, Context.empty, Context.createShader,
      Context.createProgram, Context.compileShader, Context.attachShader,
      Context.linkProgram, Context.deleteShader, hv, hf, hd, hd2, hp]

/-! ## The claims -/

/-- C3 as stated fails: the fragment source does not compile and the compiler log
is 1500 chars long.  What is written after the path line is the first 1023 chars
of the log, not the native log. -/
theorem long_compile_log_is_not_written_whole :
    longFragmentLogEnv.fragmentStatus = 0 ∧
    ∃ r, Shader.new longFragmentLogEnv "a.vert".toList "a.frag".toList = Except.ok r ∧
      r.out =
        "FRAGMENT SHADER COMPILATION ERROR\npath: a.frag\n".toList ++
        List.replicate 1023 'y' ++
        "SHADER PROGRAM LINKING ERROR\nfragment shader not compiled\n".toList ∧
      r.out ≠
        "FRAGMENT SHADER COMPILATION ERROR\npath: a.frag\n".toList ++
        longFragmentLogEnv.fragmentLog ++
        "SHADER PROGRAM LINKING ERROR\nfragment shader not compiled\n".toList := by
  have h1 : longFragmentLogEnv.noThrow := by decide
  have h2 : ¬ longFragmentLogEnv.vertexStatus = 0 := by decide
  have h3 : longFragmentLogEnv.fragmentStatus = 0 := rfl
  have h4 : longFragmentLogEnv.linkStatus = 0 := rfl
  have hlog : glGetInfoLog longFragmentLogEnv.fragmentLog 1024 = List.replicate 1023 'y' := by
    show List.take 1023 (List.replicate 1500 'y') = List.replicate 1023 'y'
    rw [List.take_replicate]
    rfl
  have hb : "FRAGMENT SHADER COMPILATION ERROR".toList ++ endl ++ "path: ".toList ++
      "a.frag".toList ++ endl = "FRAGMENT SHADER COMPILATION ERROR\npath: a.frag\n".toList := by
    decide
  have hl : "SHADER PROGRAM LINKING ERROR".toList ++ endl ++
      glGetInfoLog longFragmentLogEnv.programLog 1024 ++ endl =
      "SHADER PROGRAM LINKING ERROR\nfragment shader not compiled\n".toList := by
    decide
  have hout : ∃ r, Shader.new longFragmentLogEnv "a.vert".toList "a.frag".toList =
      Except.ok r ∧ r.out =
        "FRAGMENT SHADER COMPILATION ERROR\npath: a.frag\n".toList ++
        List.replicate 1023 'y' ++
        "SHADER PROGRAM LINKING ERROR\nfragment shader not compiled\n".toList := by
    refine ⟨_, new_eq _ _ _, ?_⟩
    simp only [checkVertex_out, checkFragment_out, checkProgram_out, if_pos h1, if_neg h2,
      if_pos h3, if_pos h4, List.nil_append, List.append_nil]
    rw [hb, hl, hlog]
  obtain ⟨r, hr, ho⟩ := hout
  refine ⟨rfl, r, hr, ho, ?_⟩
  rw [ho]
  intro h
  have hcut := List.append_cancel_left (List.append_cancel_right h)
  have hlen := congrArg List.length hcut
  have e : longFragmentLogEnv.fragmentLog.length = 1500 := by
    show (List.replicate 1500 'y').length = 1500
    exact List.length_replicate 1500 'y'
  rw [List.length_replicate, e] at hlen
  exact absurd hlen (by decide)

/-- C3, amended: for each stage, a compile status of failure (0) makes the
constructor write the label of that stage, then the line of that stage's own path,
then the first 1023 chars of the native compiler log of that stage's shader object
(the log returned by the info-log query on that stage's handle); a status of
success writes nothing for the stage and issues no info-log query on it.  The
output is the text of the catch block, the vertex piece, the fragment piece and
the link piece, in that order. -/
theorem compile_diagnostic_per_stage (env : Env) (vertexPath fragmentPath : Text) :
    ∃ r, Shader.new env vertexPath fragmentPath = Except.ok r ∧
      r.out =
        (if env.noThrow then [] else sourceReadDiagnostic vertexPath fragmentPath) ++
        (if env.vertexStatus = 0 then
          "VERTEX SHADER COMPILATION ERROR".toList ++ endl ++
            "path: ".toList ++ vertexPath ++ endl ++ env.vertexLog.take 1023
          else []) ++
        (if env.fragmentStatus = 0 then
          "FRAGMENT SHADER COMPILATION ERROR".toList ++ endl ++
            "path: ".toList ++ fragmentPath ++ endl ++ env.fragmentLog.take 1023
          else []) ++
        (if env.linkStatus = 0 then
          "SHADER PROGRAM LINKING ERROR".toList ++ endl ++ env.programLog.take 1023 ++ endl
          else []) ∧
      r.calls.filter GLCall.isInfoLogQuery =
        (if env.vertexStatus = 0 then [GLCall.glGetShaderInfoLog env.vertexShader 1024]
          else []) ++
        (if env.fragmentStatus = 0 then [GLCall.glGetShaderInfoLog env.fragmentShader 1024]
          else []) ++
        (if env.linkStatus = 0 then [GLCall.glGetProgramInfoLog env.program 1024]
          else []) := by
  refine ⟨_, new_eq env vertexPath fragmentPath, ?_, ?_⟩
  · simp only [checkVertex_out, checkFragment_out, checkProgram_out]
    rfl
  · simp only [checkVertex_calls, checkFragment_calls, checkProgram_calls]
    split_ifs <;> simp [GLCall.isInfoLogQuery]

/-- C5: when both files are opened, read and closed without failure and the three
statuses are success (nonzero), the constructor writes nothing; use() on the object
then issues the one call glUseProgram on the stored ID, which is the handle that
glCreateProgram returned to the constructor, and writes nothing either. -/
theorem clean_run_is_silent (env : Env) (vertexPath fragmentPath : Text)
    (hv : env.vertexFile.readOk) (hf : env.fragmentFile.readOk)
    (hvs : env.vertexStatus ≠ 0) (hfs : env.fragmentStatus ≠ 0) (hl : env.linkStatus ≠ 0) :
    ∃ r, Shader.new env vertexPath fragmentPath = Except.ok r ∧
      r.out = [] ∧
      r.self.ID = env.program ∧
      GLCall.glCreateProgram r.self.ID ∈ r.calls ∧
      ∀ (σ : Type) (gl : σ),
        (r.self.use gl).calls = [GLCall.glUseProgram r.self.ID] ∧
        (r.self.use gl).out = [] := by
  have hno : env.noThrow := ⟨hv.1, hf.1, hv.2.2, hf.2.2⟩
  refine ⟨_, new_eq env vertexPath fragmentPath, ?_, rfl, ?_, ?_⟩
  · simp [checkVertex_out, checkFragment_out, checkProgram_out, hno, hvs, hfs, hl]
  · simp
  · intro σ gl
    exact ⟨rfl, rfl⟩

/-- Witness of C5 on the clean run. -/
theorem clean_run_is_silent_witness :
    ∃ r, Shader.new cleanEnv "a.vert".toList "a.frag".toList = Except.ok r ∧
      r.out = [] ∧
      r.self.ID = cleanEnv.program ∧
      GLCall.glCreateProgram r.self.ID ∈ r.calls ∧
      ∀ (σ : Type) (gl : σ),
        (r.self.use gl).calls = [GLCall.glUseProgram r.self.ID] ∧
        (r.self.use gl).out = [] :=
  clean_run_is_silent cleanEnv "a.vert".toList "a.frag".toList
    (by decide) (by decide) (by decide) (by decide) (by decide)

/-- A failure that throws is reported: when one of the two open() or close() calls
fails, the output starts with the text of the catch block, naming both paths, and
both sources handed to glShaderSource are empty. -/
theorem thrown_failure_is_reported (env : Env) (vertexPath fragmentPath : Text)
    (h : ¬ env.noThrow) :
    ∃ r, Shader.new env vertexPath fragmentPath = Except.ok r ∧
      (∃ rest, r.out =
        "SHADER SOURCE FILE(S) COULD NOT BE READ".toList ++ endl ++
        "vertex: ".toList ++ vertexPath ++ endl ++
        "fragment: ".toList ++ fragmentPath ++ endl ++ rest) ∧
      r.calls.filter GLCall.isShaderSource =
        [GLCall.glShaderSource env.vertexShader [],
          GLCall.glShaderSource env.fragmentShader []] := by
  refine ⟨_, new_eq env vertexPath fragmentPath,
    ⟨(Shader.checkVertexShaderCompileErrors ⟨0, vertexPath, fragmentPath⟩
        env.vertexStatus env.vertexLog env.vertexShader).out ++
      (Shader.checkFragmentShaderCompileErrors ⟨0, vertexPath, fragmentPath⟩
        env.fragmentStatus env.fragmentLog env.fragmentShader).out ++
      (Shader.checkProgramLinkErrors ⟨env.program, vertexPath, fragmentPath⟩
        env.linkStatus env.programLog env.program).out, ?_⟩, ?_⟩
  · simp only [if_neg h, sourceReadDiagnostic, List.append_assoc]
  · simp only [checkVertex_calls, checkFragment_calls, checkProgram_calls, if_neg h]
    split_ifs <;> simp [c_str, GLCall.isShaderSource]

/-- C2, at the failing input: the vertex path names a readable file and the
fragment path a directory, which opens but cannot be read.  A file could not be
read, yet the constructor returns having written nothing at all: the read error is
recorded in the std::stringstream only and no exception reaches the catch block. -/
theorem read_error_is_not_reported :
    directoryEnv.fragmentFile.openOrReadFails ∧
    ∃ r, Shader.new directoryEnv "a.vert".toList "shaders".toList = Except.ok r ∧
      r.out = [] := by
  refine ⟨by decide, _, new_eq _ _ _, ?_⟩
  decide

/-- C10, at the failing input: the vertex file is read in full and the read of the
fragment file fails (its path names a directory).  The vertex source handed to
glShaderSource is the whole vertex file, not the empty string; only the fragment
source is empty. -/
theorem read_error_keeps_vertex_source :
    directoryEnv.vertexFile.readOk ∧ directoryEnv.fragmentFile.openOrReadFails ∧
    ∃ r, Shader.new directoryEnv "a.vert".toList "shaders".toList = Except.ok r ∧
      r.calls.filter GLCall.isShaderSource =
        [GLCall.glShaderSource 1 "void main(){}".toList, GLCall.glShaderSource 2 []] := by
  refine ⟨by decide, by decide, _, new_eq _ _ _, ?_⟩
  decide

/-- C4 as stated fails: the two stages do not link, the paths are ERROR and a.frag,
and the linker log contains neither of them.  The whole output is the link
diagnostic, and the vertex path occurs in it, inside its label. -/
theorem link_diagnostic_contains_label_path :
    linkFailEnv.linkStatus = 0 ∧
    ¬ "ERROR".toList <:+: linkFailEnv.programLog ∧
    ¬ "a.frag".toList <:+: linkFailEnv.programLog ∧
    ∃ r, Shader.new linkFailEnv "ERROR".toList "a.frag".toList = Except.ok r ∧
      r.out = (r.self.checkProgramLinkErrors linkFailEnv.linkStatus
        linkFailEnv.programLog r.self.ID).out ∧
      r.out = "SHADER PROGRAM LINKING ERROR\nvaryings do not match\n".toList ∧
      "ERROR".toList <:+: r.out := by
  refine ⟨rfl, by decide, by decide, _, new_eq _ _ _, by decide, by decide, ?_⟩
  exact ⟨"SHADER PROGRAM LINKING ".toList, "\nvaryings do not match\n".toList, by decide⟩

/-- C4, amended: a link status of failure (0) makes the constructor write, after
all it writes when the link succeeds, the label SHADER PROGRAM LINKING ERROR, a
line end, the log returned by the info-log query on the program object it created
and linked, and a line end.  No path is written into this diagnostic: its text is
given by the log alone, the same for every pair of paths. -/
theorem link_diagnostic_is_label_and_log (env : Env) (vertexPath fragmentPath : Text)
    (h : env.linkStatus = 0) :
    ∃ r r0, Shader.new env vertexPath fragmentPath = Except.ok r ∧
      Shader.new { env with linkStatus := 1 } vertexPath fragmentPath = Except.ok r0 ∧
      r.out = r0.out ++
        ("SHADER PROGRAM LINKING ERROR".toList ++ endl ++
          glGetInfoLog env.programLog 1024 ++ endl) ∧
      r.self.ID = env.program ∧
      GLCall.glLinkProgram r.self.ID ∈ r.calls ∧
      r.calls.filter GLCall.isQuery =
        r0.calls.filter GLCall.isQuery ++ [GLCall.glGetProgramInfoLog r.self.ID 1024] := by
  have e : ({ env with linkStatus := 1 } : Env).noThrow = env.noThrow := rfl
  refine ⟨_, _, new_eq env vertexPath fragmentPath, new_eq _ vertexPath fragmentPath,
    ?_, rfl, ?_, ?_⟩
  · simp [checkProgram_out, h, e]
  · simp
  · simp only [checkVertex_calls, checkFragment_calls, checkProgram_calls, h, e]
    split_ifs <;> simp_all [GLCall.isQuery]

/-- Witness of the amended C4 on the run that does not link. -/
theorem link_diagnostic_is_label_and_log_witness :
    linkFailEnv.linkStatus = 0 ∧
    ∃ r r0, Shader.new linkFailEnv "a.vert".toList "a.frag".toList = Except.ok r ∧
      Shader.new { linkFailEnv with linkStatus := 1 } "a.vert".toList "a.frag".toList =
        Except.ok r0 ∧
      r.out = r0.out ++
        ("SHADER PROGRAM LINKING ERROR".toList ++ endl ++
          glGetInfoLog linkFailEnv.programLog 1024 ++ endl) ∧
      r.self.ID = linkFailEnv.program ∧
      GLCall.glLinkProgram r.self.ID ∈ r.calls ∧
      r.calls.filter GLCall.isQuery =
        r0.calls.filter GLCall.isQuery ++ [GLCall.glGetProgramInfoLog r.self.ID 1024] :=
  ⟨rfl, link_diagnostic_is_label_and_log linkFailEnv "a.vert".toList "a.frag".toList rfl⟩

/-- C6 as stated fails: glCreateShader returns 0 for the vertex stage, the code
goes on unchecked, the vertex status reads failure, and the program links with the
fragment stage alone.  The stored ID is 3, nonzero, and the context accepts
glUseProgram on it (it names a linked program object), while the vertex compile
status is not success. -/
theorem accepted_ID_without_vertex_stage :
    ∃ r ctx, Shader.new noVertexObjectEnv "a.vert".toList "a.frag".toList = Except.ok r ∧
      noVertexObjectEnv.contextAfter r.calls = some ctx ∧
      r.self.ID ≠ 0 ∧
      ctx.acceptsUse r.self.ID ∧
      ctx.shaders = [noVertexObjectEnv.fragmentShader] ∧
      ctx.attached = [(r.self.ID, noVertexObjectEnv.fragmentShader)] ∧
      ¬ (noVertexObjectEnv.vertexStatus ≠ 0 ∧ noVertexObjectEnv.fragmentStatus ≠ 0 ∧
        noVertexObjectEnv.linkStatus ≠ 0) := by
  refine ⟨_, (⟨[2], [2], [2], [3], [(3, 2)], [3]⟩ : Context), new_eq _ _ _,
    ?_, ?_, ?_, ?_, ?_, ?_⟩ <;> decide

/-- C6, amended: in every construction run in which both glCreateShader calls
returned nonzero names, distinct from each other, if the stored ID is nonzero and
accepted by the graphics context (glUseProgram on it is not refused: it names a
program object whose link succeeded) then the vertex compile status, the fragment
compile status and the link status were all success; and conversely. -/
theorem accepted_ID_means_all_succeeded (env : Env) (vertexPath fragmentPath : Text)
    (hv : env.vertexShader ≠ 0) (hf : env.fragmentShader ≠ 0)
    (hd : env.vertexShader ≠ env.fragmentShader) (hp : env.program ≠ 0) :
    ∃ r ctx, Shader.new env vertexPath fragmentPath = Except.ok r ∧
      r.self.ID = env.program ∧
      env.contextAfter r.calls = some ctx ∧
      (ctx.acceptsUse r.self.ID ↔
        (env.vertexStatus ≠ 0 ∧ env.fragmentStatus ≠ 0 ∧ env.linkStatus ≠ 0)) := by
  obtain ⟨r, vsrc, fsrc, hr, hself, hcalls⟩ := new_calls env vertexPath fragmentPath
  have hid : r.self.ID = env.program := by rw [hself]
  refine ⟨r, ctorContext env, hr, hid, ?_, ?_⟩
  · rw [hcalls]
    exact contextAfter_ctor env vsrc fsrc hv hf hd hp
  · rw [hid]
    unfold Context.acceptsUse ctorContext
    by_cases h : env.vertexStatus ≠ 0 ∧ env.fragmentStatus ≠ 0 ∧ env.linkStatus ≠ 0
    · simp [h]
    · simp [h, hp]

/-- Witness of the amended C6 on the clean run. -/
theorem accepted_ID_means_all_succeeded_witness :
    cleanEnv.vertexShader ≠ 0 ∧ cleanEnv.fragmentShader ≠ 0 ∧
    cleanEnv.vertexShader ≠ cleanEnv.fragmentShader ∧ cleanEnv.program ≠ 0 ∧
    ∃ r ctx, Shader.new cleanEnv "a.vert".toList "a.frag".toList = Except.ok r ∧
      r.self.ID = cleanEnv.program ∧
      cleanEnv.contextAfter r.calls = some ctx ∧
      (ctx.acceptsUse r.self.ID ↔
        (cleanEnv.vertexStatus ≠ 0 ∧ cleanEnv.fragmentStatus ≠ 0 ∧
          cleanEnv.linkStatus ≠ 0)) :=
  ⟨by decide, by decide, by decide, by decide,
    accepted_ID_means_all_succeeded cleanEnv "a.vert".toList "a.frag".toList
      (by decide) (by decide) (by decide) (by decide)⟩

/-- C8 as stated fails: the vertex compiler log is 1024 chars long, and the log
text the diagnostic carries is 1023 chars long, not min(1024, 1024) = 1024: the
log is not printed in full. -/
theorem log_of_1024_chars_is_cut :
    longLogEnv.vertexLog.length = 1024 ∧
    ∃ r, Shader.new longLogEnv "a.vert".toList "a.frag".toList = Except.ok r ∧
      ∃ before after printed,
        r.out = before ++ printed ++ after ∧
        before = "VERTEX SHADER COMPILATION ERROR\npath: a.vert\n".toList ∧
        after = (r.self.checkProgramLinkErrors longLogEnv.linkStatus
          longLogEnv.programLog r.self.ID).out ∧
        printed = glGetInfoLog longLogEnv.vertexLog 1024 ∧
        printed.length = 1023 ∧
        printed.length ≠ min longLogEnv.vertexLog.length 1024 ∧
        printed ≠ longLogEnv.vertexLog := by
  have hlen : longLogEnv.vertexLog.length = 1024 := List.length_replicate 1024 'x'
  have hcut : (glGetInfoLog longLogEnv.vertexLog 1024).length = 1023 := by
    unfold glGetInfoLog
    rw [List.length_take, hlen]
    rfl
  have h1 : longLogEnv.noThrow := by decide
  have h2 : longLogEnv.vertexStatus = 0 := rfl
  have h3 : ¬ longLogEnv.fragmentStatus = 0 := by decide
  have hb : "VERTEX SHADER COMPILATION ERROR".toList ++ endl ++ "path: ".toList ++
      "a.vert".toList ++ endl = "VERTEX SHADER COMPILATION ERROR\npath: a.vert\n".toList := by
    decide
  refine ⟨hlen, _, new_eq _ _ _, _, _, _, ?_, rfl, rfl, rfl, hcut, ?_, ?_⟩
  · simp only [checkVertex_out, checkFragment_out, if_pos h1, if_pos h2, if_neg h3,
      List.nil_append, List.append_nil]
    rw [hb]
  · rw [hcut, hlen]
    decide
  · intro h
    have hl := congrArg List.length h
    rw [hcut, hlen] at hl
    exact absurd hl (by decide)

/-- C8, amended: every compile or link diagnostic carries the native log cut to
what the 1024-char buffer holds before its terminating NUL: for every log L the
text printed is the first min(|L|, 1023) chars of L, so a log of up to 1023 chars
is printed in full and a longer one is cut at 1023 chars. -/
theorem diagnostic_log_is_cut_at_1023 (self : Shader) (L : Text) (object : Nat) :
    (self.checkVertexShaderCompileErrors 0 L object).out =
      "VERTEX SHADER COMPILATION ERROR".toList ++ endl ++
        "path: ".toList ++ self.vertexSourcePath ++ endl ++ L.take (min L.length 1023) ∧
    (self.checkFragmentShaderCompileErrors 0 L object).out =
      "FRAGMENT SHADER COMPILATION ERROR".toList ++ endl ++
        "path: ".toList ++ self.fragmentSourcePath ++ endl ++ L.take (min L.length 1023) ∧
    (self.checkProgramLinkErrors 0 L object).out =
      "SHADER PROGRAM LINKING ERROR".toList ++ endl ++ L.take (min L.length 1023) ++ endl ∧
    L.take (min L.length 1023) <+: L ∧
    (L.take (min L.length 1023)).length = min L.length 1023 ∧
    (L.length ≤ 1023 → L.take (min L.length 1023) = L) := by
  have e : glGetInfoLog L 1024 = L.take (min L.length 1023) := by
    unfold glGetInfoLog
    rcases Nat.le_total L.length 1023 with h | h
    · rw [Nat.min_eq_left h, List.take_of_length_le h, List.take_of_length_le (le_refl _)]
    · rw [Nat.min_eq_right h]
  refine ⟨?_, ?_, ?_, List.take_prefix _ _, ?_, ?_⟩
  · rw [checkVertex_out, if_pos rfl, e]
  · rw [checkFragment_out, if_pos rfl, e]
  · rw [checkProgram_out, if_pos rfl, e]
  · simp
  · intro h
    rw [Nat.min_eq_left h, List.take_of_length_le (le_refl _)]

/-- C7: for each of the four setters, every name and every value, when the lookup
of the name on the stored ID answers -1 the call writes nothing, returns normally
(a setter has no error path: its result is a plain value), leaves the ID and the
two paths of the object as they were and leaves the uniform state of the context
as it was; so does any number of repetitions of the call. -/
theorem unresolved_uniform_is_noop {σ : Type} (d : Driver σ) (self : Shader) (name : Text)
    (gl : σ) (h : d.getUniformLocation gl self.ID name = -1) :
    (∀ value : Bool,
      (self.setBool d name value gl).out = [] ∧ (self.setBool d name value gl).self = self ∧
      (self.setBool d name value gl).gl = gl ∧
      ∀ n : Nat, (fun g => (self.setBool d name value g).gl)^[n] gl = gl) ∧
    (∀ value : Int,
      (self.setInt d name value gl).out = [] ∧ (self.setInt d name value gl).self = self ∧
      (self.setInt d name value gl).gl = gl ∧
      ∀ n : Nat, (fun g => (self.setInt d name value g).gl)^[n] gl = gl) ∧
    (∀ value : GLfloat,
      (self.setFloat d name value gl).out = [] ∧ (self.setFloat d name value gl).self = self ∧
      (self.setFloat d name value gl).gl = gl ∧
      ∀ n : Nat, (fun g => (self.setFloat d name value g).gl)^[n] gl = gl) ∧
    (∀ value1 value2 value3 value4 : GLfloat,
      (self.setFloat4 d name value1 value2 value3 value4 gl).out = [] ∧
      (self.setFloat4 d name value1 value2 value3 value4 gl).self = self ∧
      (self.setFloat4 d name value1 value2 value3 value4 gl).gl = gl ∧
      ∀ n : Nat,
        (fun g => (self.setFloat4 d name value1 value2 value3 value4 g).gl)^[n] gl = gl) := by
  refine ⟨fun value => ?_, fun value => ?_, fun value => ?_, fun v1 v2 v3 v4 => ?_⟩
  · have e : (self.setBool d name value gl).gl = gl := by
      simp [Shader.setBool, glUniform1i, h]
    exact ⟨rfl, rfl, e, fun n => Function.iterate_fixed e n⟩
  · have e : (self.setInt d name value gl).gl = gl := by
      simp [Shader.setInt, glUniform1i, h]
    exact ⟨rfl, rfl, e, fun n => Function.iterate_fixed e n⟩
  · have e : (self.setFloat d name value gl).gl = gl := by
      simp [Shader.setFloat, glUniform1f, h]
    exact ⟨rfl, rfl, e, fun n => Function.iterate_fixed e n⟩
  · have e : (self.setFloat4 d name v1 v2 v3 v4 gl).gl = gl := by
      simp [Shader.setFloat4, glUniform4f, h]
    exact ⟨rfl, rfl, e, fun n => Function.iterate_fixed e n⟩

/-- Witness of C7: the name missing is no active uniform of the sample context. -/
theorem unresolved_uniform_is_noop_witness :
    oneUniformDriver.getUniformLocation [(0, 7)] 3 "missing".toList = -1 ∧
    (Shader.setInt oneUniformDriver ⟨3, "a.vert".toList, "a.frag".toList⟩
      "missing".toList 5 [(0, 7)]).gl = [(0, 7)] :=
  ⟨by decide,
    ((unresolved_uniform_is_noop oneUniformDriver ⟨3, "a.vert".toList, "a.frag".toList⟩
      "missing".toList [(0, 7)] (by decide)).2.1 5).2.2.1⟩

/-- C9 as stated fails: on the clean run the context creates the objects 1, 2 and
3, and both delete calls are issued after the link; but the stage objects are
still attached to the program, so the context only flags them for deletion: after
construction it holds the shader objects 1 and 2 besides the program 3, which is
not the only object still allocated. -/
theorem deleted_stage_objects_stay_attached :
    ∃ r ctx, Shader.new cleanEnv "a.vert".toList "a.frag".toList = Except.ok r ∧
      cleanEnv.contextAfter r.calls = some ctx ∧
      r.calls.filter GLCall.isDelete = [GLCall.glDeleteShader 1, GLCall.glDeleteShader 2] ∧
      ctx.programs = [r.self.ID] ∧
      ctx.shaders = [1, 2] ∧
      ctx.flagged = [1, 2] ∧
      ctx.attached = [(r.self.ID, 1), (r.self.ID, 2)] ∧
      ctx.shaders ≠ [] := by
  refine ⟨_, (⟨[1, 2], [1, 2], [1, 2], [3], [(3, 1), (3, 2)], [3]⟩ : Context),
    new_eq _ _ _, ?_, ?_, ?_, ?_, ?_, ?_, ?_⟩ <;> decide

/-- C9, amended: in every construction run exactly two glCreateShader calls, one
per stage, and one glCreateProgram call are issued; glDeleteShader is called on
the handle of each stage, the very handles that the create calls returned and that
were attached, one call per stage, both after the link call and none before it;
no call of construction, of use() or of a setter deletes the program object.  The
stage objects are never detached: when the context created the three objects
(nonzero names, distinct for the two stages) the delete calls only flag the stage
objects for deletion, and after construction the context still holds the program
and, attached to it, both stage objects. -/
theorem stage_objects_flagged_program_kept {σ : Type} (d : Driver σ) (gl : σ)
    (env : Env) (vertexPath fragmentPath : Text) :
    ∃ r, Shader.new env vertexPath fragmentPath = Except.ok r ∧
      r.calls.filter GLCall.isCreate =
        [GLCall.glCreateShader ShaderType.GL_VERTEX_SHADER env.vertexShader,
          GLCall.glCreateShader ShaderType.GL_FRAGMENT_SHADER env.fragmentShader,
          GLCall.glCreateProgram r.self.ID] ∧
      (∃ before after, r.calls = before ++ GLCall.glLinkProgram r.self.ID :: after ∧
        before.filter GLCall.isDelete = [] ∧
        GLCall.glAttachShader r.self.ID env.vertexShader ∈ before ∧
        GLCall.glAttachShader r.self.ID env.fragmentShader ∈ before ∧
        after.filter GLCall.isDelete =
          [GLCall.glDeleteShader env.vertexShader, GLCall.glDeleteShader env.fragmentShader]) ∧
      (∀ q, GLCall.glDeleteProgram q ∉ r.calls ∧
        GLCall.glDeleteProgram q ∉ (r.self.use gl).calls ∧
        (∀ name value, GLCall.glDeleteProgram q ∉ (r.self.setBool d name value gl).calls) ∧
        (∀ name value, GLCall.glDeleteProgram q ∉ (r.self.setInt d name value gl).calls) ∧
        (∀ name value, GLCall.glDeleteProgram q ∉ (r.self.setFloat d name value gl).calls) ∧
        (∀ name v1 v2 v3 v4,
          GLCall.glDeleteProgram q ∉ (r.self.setFloat4 d name v1 v2 v3 v4 gl).calls)) ∧
      (env.vertexShader ≠ 0 → env.fragmentShader ≠ 0 →
        env.vertexShader ≠ env.fragmentShader → env.program ≠ 0 →
        ∃ ctx, env.contextAfter r.calls = some ctx ∧
          ctx.programs = [r.self.ID] ∧
          ctx.shaders = [env.vertexShader, env.fragmentShader] ∧
          ctx.flagged = [env.vertexShader, env.fragmentShader] ∧
          ctx.attached =
            [(r.self.ID, env.vertexShader), (r.self.ID, env.fragmentShader)]) := by
  obtain ⟨r, vsrc, fsrc, hr, hself, hcalls⟩ := new_calls env vertexPath fragmentPath
  have hid : r.self.ID = env.program := by rw [hself]
  refine ⟨r, hr, ?_, ?_, ?_, ?_⟩
  · rw [hcalls, hid, List.filter_append, ctorCalls_filter_isCreate]
    split_ifs <;> simp [GLCall.isCreate]
  · refine ⟨ctorCalls env vsrc fsrc, _, by rw [hcalls, hid],
      ctorCalls_filter_isDelete env vsrc fsrc, ?_, ?_, ?_⟩
    · rw [hid]; simp [ctorCalls]
    · rw [hid]; simp [ctorCalls]
    · split_ifs <;> simp [GLCall.isDelete]
  · intro q
    refine ⟨?_, ?_, ?_, ?_, ?_, ?_⟩
    · rw [hcalls, List.mem_append]
      rintro (h | h)
      · exact ctorCalls_no_deleteProgram env vsrc fsrc q h
      · revert h
        split_ifs <;> simp
    · simp [Shader.use]
    · intro name value; simp [Shader.setBool]
    · intro name value; simp [Shader.setInt]
    · intro name value; simp [Shader.setFloat]
    · intro name v1 v2 v3 v4; simp [Shader.setFloat4]
  · intro hv hf hd hp
    refine ⟨ctorContext env,
      by rw [hcalls]; exact contextAfter_ctor env vsrc fsrc hv hf hd hp, ?_⟩
    rw [hid]
    exact ⟨rfl, rfl, rfl, rfl⟩

/-- Witness of the amended C9 on the clean run, whose handles are 1, 2 and 3. -/
theorem stage_objects_flagged_program_kept_witness :
    cleanEnv.vertexShader ≠ 0 ∧ cleanEnv.fragmentShader ≠ 0 ∧
    cleanEnv.vertexShader ≠ cleanEnv.fragmentShader ∧ cleanEnv.program ≠ 0 ∧
    ∃ r, Shader.new cleanEnv "a.vert".toList "a.frag".toList = Except.ok r ∧
      ∃ ctx, cleanEnv.contextAfter r.calls = some ctx ∧
        ctx.programs = [r.self.ID] ∧
        ctx.shaders = [cleanEnv.vertexShader, cleanEnv.fragmentShader] ∧
        ctx.flagged = [cleanEnv.vertexShader, cleanEnv.fragmentShader] ∧
        ctx.attached =
          [(r.self.ID, cleanEnv.vertexShader), (r.self.ID, cleanEnv.fragmentShader)] :=
  ⟨by decide, by decide, by decide, by decide,
    (stage_objects_flagged_program_kept oneUniformDriver [] cleanEnv
      "a.vert".toList "a.frag".toList).imp
      (fun _ hr => ⟨hr.1, hr.2.2.2.2 (by decide) (by decide) (by decide) (by decide)⟩)⟩

end LearnOpenGL
